import Mathlib

/-!
Shallow embedding of the device registry (`psychopy/hardware/manager.py`) and of
the BBTK TPad serial protocol driver (`psychopy/hardware/bbtk/tpad.py`),
together with theorems settling the specification claims about them.
Machine times are modelled as exact rationals.
-/

set_option autoImplicit false

namespace PsychoPy

/-! ### Python-level errors raised on the paths the claims touch -/

inductive PyError where
  | attributeError (attr : String)
  | keyError (key : String)
  | valueError (msg : String)
  | serialException
deriving DecidableEq

/-! ### Device registry (`manager.py`) -/

/-- A live device as the registry sees it.  Modelled from the spec: the concrete
device classes live outside src/; per the glossary, a device's identity is its
type tag together with the identity parameters of its construction. -/
structure Device where
  dtype : String
  identity : List (String × String)
deriving DecidableEq

/-- Modelled from the spec: `isSameDevice` is defined on device classes outside
src/; `register(device)` scans for "an existing device whose identity
parameters equal the new device's", so the test is equality of the
(type, identity-parameters) tuple. -/
def isSameDevice (obj other : Device) : Bool :=
  decide (obj.dtype = other.dtype ∧ obj.identity = other.identity)

/-- `DeviceManager.registerDevice`: linear scan over the registry; if any
existing entry reports `isSameDevice` against the new device's params the
method returns without appending, otherwise the device is appended. -/
def registerDevice (reg : List Device) (device : Device) : List Device :=
  if reg.any (fun obj => isSameDevice obj device) then reg else reg ++ [device]

/-- The keys placed in `_deviceAddMethods` by the `deviceAddMethod` decorators
on `DeviceManager`, in source order. -/
def deviceAddMethodKeys : List String :=
  ["Keyboard", "Mouse", "Microphone", "Camera", "Serial", "TPad"]

/-- One entry of the declarative device spec list: the required `type` key, the
optional `name` key, and the remaining keys. -/
structure SpecItem where
  dtype : String
  name : Option String
  args : List (String × String)
deriving DecidableEq

/-- A constructor call issued by `addDevicesFromSpec`: which registered add
method was invoked, with which name and remaining keyword arguments. -/
structure Invocation where
  ioType : String
  name : String
  args : List (String × String)
deriving DecidableEq

/-- `DeviceManager.addDevicesFromSpec`.  For each item the source pops `type`;
if a `name` key is present it is popped and used, otherwise the source
evaluates `name in self.devices` — `DeviceManager` subclasses `list` and no
`devices` attribute is ever assigned, so this lookup raises `AttributeError`.
It then evaluates `_deviceAddMethods[ioType]`, raising `KeyError` when
`ioType` was never registered, and calls the method; the call itself is
represented by recording the invocation. -/
def addDevicesFromSpec (addMethods : List String) :
    List SpecItem → Except PyError (List Invocation)
  | [] => .ok []
  | item :: rest =>
    match item.name with
    | none => .error (.attributeError "devices")
    | some n =>
      if addMethods.contains item.dtype then
        match addDevicesFromSpec addMethods rest with
        | .ok invs => .ok (⟨item.dtype, n, item.args⟩ :: invs)
        | .error e => .error e
      else
        .error (.keyError item.dtype)

/-! ### TPad wire grammar (`tpad.py`) -/

/-- The `channelCodes` dict: possible values for a message's channel. -/
def channelCodes : List (Char × String) :=
  [('A', "Buttons"), ('C', "Optos"), ('M', "Voice key"), ('T', "TTL in")]

/-- The `stateCodes` dict: possible values for a message's state. -/
def stateCodes : List (Char × String) :=
  [('P', "Pressed/On"), ('R', "Released/Off")]

/-- The `buttonCodes` dict: possible values for a message's button/opto code. -/
def buttonCodes : List (Char × String) :=
  [('1', "Button 1"), ('2', "Button 2"), ('3', "Button 2"), ('4', "Button 2"),
   ('5', "Button 2"), ('6', "Button 2"), ('7', "Button 2"), ('8', "Button 2"),
   ('9', "Button 2"), ('0', "Button 2"), ('[', "Opto 1"), (']', "Opto 2")]

/-- The channel alphabet interpolated into `messageFormat`. -/
def channelKeys : List Char := channelCodes.map Prod.fst

/-- The state alphabet interpolated into `messageFormat`. -/
def stateKeys : List Char := stateCodes.map Prod.fst

/-- The button/opto alphabet interpolated into `messageFormat`. -/
def buttonKeys : List Char := buttonCodes.map Prod.fst

/-- `re.match` of `messageFormat` against the start of a line.  The pattern is
four capture groups separated by literal single spaces: a channel character, a
state character, a button character, and a greedy run of decimal digits which
may be empty; since `re.match` anchors only the start of the string, text
after the digit run does not prevent a match.  Returns the groups on
success (`splitTPadMessage`), `none` when the line does not match. -/
def matchMessageFormat : List Char → Option (Char × Char × Char × List Char)
  | c :: ' ' :: s :: ' ' :: b :: ' ' :: rest =>
    if channelKeys.contains c && stateKeys.contains s && buttonKeys.contains b then
      some (c, s, b, rest.takeWhile Char.isDigit)
    else
      none
  | _ => none

/-- Python `int(button)` on the single-character button group: the value of a
digit character, `ValueError` on the bracket opto codes. -/
def pyIntOfChar (c : Char) : Except PyError Nat :=
  if c.isDigit then .ok (c.toNat - '0'.toNat)
  else .error (.valueError "invalid literal for int")

/-- Decimal value of a digit run. -/
def digitsVal (s : List Char) : Nat :=
  s.foldl (fun acc c => acc * 10 + (c.toNat - '0'.toNat)) 0

/-- Python `float(time)` on the digit-run group, as an exact rational:
`ValueError` on the empty string, else the decimal value. -/
def pyFloatOfDigits (s : List Char) : Except PyError ℚ :=
  if s.isEmpty then .error (.valueError "could not convert string to float")
  else .ok (digitsVal s : ℚ)

/-! ### Sub-device handlers -/

/-- Modelled from the spec: `photodiode.PhotodiodeResponse` lives outside src/;
§3 gives a Response as a timestamp in seconds, a boolean value and an optional
numeric threshold. -/
structure PhotodiodeResponse where
  t : ℚ
  value : Bool
  threshold : Option ℚ
deriving DecidableEq

/-- State of a `TPadPhotodiode` handler: its number, the locally mirrored
threshold, and its ordered response log (the log lives on the base class
outside src/, modelled from the spec: an append-only per-device log). -/
structure TPadPhotodiode where
  number : Nat
  threshold : Option ℚ
  messages : List PhotodiodeResponse
deriving DecidableEq

/-- `TPadPhotodiode.parseMessage` on the parts tuple built by
`dispatchMessages`: the source maps state `'P'` to `True` and `'R'` to
`False` through an `if`/`elif`, and the grammar admits no other state
character on this path, so the value is `state == 'P'`; the response carries
the message time and the handler's threshold (`getThreshold` is on the base
class outside src/, modelled from the spec as the locally mirrored value). -/
def TPadPhotodiode.parseMessage (pd : TPadPhotodiode)
    (parts : Char × Char × Nat × ℚ) : PhotodiodeResponse :=
  { t := parts.2.2.2, value := parts.2.1 == 'P', threshold := pd.threshold }

/-- Modelled from the spec: `receiveMessage` lives on the base class outside
src/ and "appends to its own ordered log". -/
def TPadPhotodiode.receiveMessage (pd : TPadPhotodiode)
    (resp : PhotodiodeResponse) : TPadPhotodiode :=
  { pd with messages := pd.messages ++ [resp] }

/-! ### TPad driver state -/

/-- Driver state for `TPad`: the device-side mode selected by the last `MOD`
command, the log of commands written to the serial port, the message history
dict `self.messages` keyed by timestamp, the reset epoch `_lastTimerReset`,
and the two photodiode handlers (`self.photodiodes`, keys 1 and 2).  The
button handlers (keys 1..10) and the voice-key handler (key 1) are
`TPadButton` / `TPadVoicekey` stub instances whose classes define only
`__init__`, so they carry no state. -/
structure TPad where
  mode : Nat
  sent : List String
  messages : List (ℚ × String)
  lastTimerReset : ℚ
  pd1 : TPadPhotodiode
  pd2 : TPadPhotodiode
deriving DecidableEq

/-- Python dict assignment `d[k] = v` on an insertion-ordered dict: replace the
value in place when the key is already present, else append the pair. -/
def dictInsert (d : List (ℚ × String)) (k : ℚ) (v : String) : List (ℚ × String) :=
  if d.any (fun p => decide (p.1 = k)) then
    d.map (fun p => if p.1 = k then (p.1, v) else p)
  else
    d ++ [(k, v)]

/-- The target a parsed line is dispatched to. -/
inductive Node where
  | button (n : Nat)
  | photodiode (n : Nat)
  | voicekey (n : Nat)
deriving DecidableEq

/-- The node selection in `dispatchMessages`: three successive `if` statements
over (channel, button), each overwriting `node` when its condition holds; the
key sets are the dict keys of `self.buttons` (1..10), `self.photodiodes`
(1..2) and `self.voicekeys` (1). -/
def resolveNode (channel : Char) (button : Nat) : Option Node :=
  let node : Option Node := none
  let node := if channel = 'A' ∧ 1 ≤ button ∧ button ≤ 10 then
    some (.button button) else node
  let node := if channel = 'C' ∧ 1 ≤ button ∧ button ≤ 2 then
    some (.photodiode button) else node
  let node := if channel = 'M' ∧ button = 1 then
    some (.voicekey button) else node
  node

/-- Lookup in the `self.photodiodes` dict. -/
def TPad.getPhotodiode (st : TPad) (n : Nat) : Option TPadPhotodiode :=
  if n = 1 then some st.pd1 else if n = 2 then some st.pd2 else none

/-- Write back an updated photodiode handler. -/
def TPad.setPhotodiode (st : TPad) (n : Nat) (pd : TPadPhotodiode) : TPad :=
  if n = 1 then { st with pd1 := pd }
  else if n = 2 then { st with pd2 := pd }
  else st

/-- Outcome of processing wire lines: the driver state as mutated so far, the
responses delivered to photodiode handlers (handler number paired with the
response), and the first uncaught exception if any — Python mutations
performed before an exception survive it. -/
structure DispatchOut where
  state : TPad
  delivered : List (Nat × PhotodiodeResponse)
  error : Option PyError
deriving DecidableEq

/-- The final dispatch step of the loop body: nothing happens without a target
node; a photodiode handler parses the parts tuple into a response and
receives it; the `TPadButton` and `TPadVoicekey` stubs define neither
`parseMessage` nor `receiveMessage`, so dispatching to them raises
`AttributeError`. -/
def dispatchToNode (st1 : TPad) (node : Option Node)
    (parts : Char × Char × Nat × ℚ) : DispatchOut :=
  match node with
  | none => ⟨st1, [], none⟩
  | some (.photodiode n) =>
    match st1.getPhotodiode n with
    | none => ⟨st1, [], some (.keyError "photodiode")⟩
    | some pd =>
      let resp := pd.parseMessage parts
      ⟨st1.setPhotodiode n (pd.receiveMessage resp), [(n, resp)], none⟩
  | some (.button _) => ⟨st1, [], some (.attributeError "parseMessage")⟩
  | some (.voicekey _) => ⟨st1, [], some (.attributeError "parseMessage")⟩

/-- The body of the `for` loop of `TPad.dispatchMessages` for one line: skip
the line when it does not match `messageFormat`; otherwise split it into
groups, integerise the button (`int` raises `ValueError` on the bracket
codes), compute `float(time) / 1000 + self._lastTimerReset`, store the raw
line in `self.messages` keyed by that timestamp, resolve the target node,
and dispatch to it. -/
def dispatchLine (st : TPad) (line : String) : DispatchOut :=
  match matchMessageFormat line.data with
  | none => ⟨st, [], none⟩
  | some (channel, state, buttonChar, timeDigits) =>
    match pyIntOfChar buttonChar with
    | .error e => ⟨st, [], some e⟩
    | .ok button =>
      match pyFloatOfDigits timeDigits with
      | .error e => ⟨st, [], some e⟩
      | .ok rawTime =>
        let time : ℚ := rawTime / 1000 + st.lastTimerReset
        let st1 : TPad := { st with messages := dictInsert st.messages time line }
        dispatchToNode st1 (resolveNode channel button) (channel, state, button, time)

/-- `TPad.dispatchMessages` over the lines read from the box within the
timeout: process lines in order; an uncaught exception aborts the loop while
the mutations already performed persist. -/
def dispatchMessages (st : TPad) : List String → DispatchOut
  | [] => ⟨st, [], none⟩
  | line :: rest =>
    let out := dispatchLine st line
    match out.error with
    | some e => ⟨out.state, out.delivered, some e⟩
    | none =>
      let outRest := dispatchMessages out.state rest
      ⟨outRest.state, out.delivered ++ outRest.delivered, outRest.error⟩

/-! ### Serial transport, `setMode`, `resetTimer` -/

/-- Fault model for the serial transport: which command writes raise
`serial.serialutil.SerialException`. -/
structure Transport where
  fault : String → Bool

/-- `SerialDevice.sendMessage`: write the command to the wire, or raise the
transport's fault for it. -/
def sendMessage (tr : Transport) (st : TPad) (msg : String) : Except PyError TPad :=
  if tr.fault msg then .error .serialException
  else .ok { st with sent := st.sent ++ [msg] }

/-- `TPad.setMode`: a best-effort exit of the current mode (the `"X"` command)
inside `try`/`except serial.serialutil.SerialException: pass`, so a transport
fault there is swallowed; then the `MOD<mode>` select command, whose fault
propagates.  `pause` and the buffer-clearing `getResponse` do not affect the
modelled state. -/
def setMode (tr : Transport) (st : TPad) (mode : Nat) : Except PyError TPad :=
  let st1 := match sendMessage tr st "X" with
    | .ok st' => st'
    | .error _ => st
  match sendMessage tr st1 ("MOD" ++ toString mode) with
  | .error e => .error e
  | .ok st2 => .ok { st2 with mode := mode }

/-- `TPad.resetTimer`: `setMode 0`; send `"REST"`; pause; record the host
clock reading (`logging.defaultClock.getTime()`, supplied here as `now`) in
`self._lastTimerReset`; `setMode 3`. -/
def resetTimer (tr : Transport) (now : ℚ) (st : TPad) : Except PyError TPad :=
  match setMode tr st 0 with
  | .error e => .error e
  | .ok st1 =>
    match sendMessage tr st1 "REST" with
    | .error e => .error e
    | .ok st2 => setMode tr { st2 with lastTimerReset := now } 3

/-! ### Concrete states used to instantiate the theorems -/

/-- A fresh photodiode handler. -/
def pdFresh (n : Nat) : TPadPhotodiode :=
  { number := n, threshold := none, messages := [] }

/-- A TPad driver state with empty logs. -/
def tpadFresh : TPad :=
  { mode := 3, sent := [], messages := [], lastTimerReset := 0,
    pd1 := pdFresh 1, pd2 := pdFresh 2 }

/-- `tpadFresh` with a given reset epoch. -/
def tpadAt (T0 : ℚ) : TPad := { tpadFresh with lastTimerReset := T0 }

/-- A fault-free transport. -/
def noFault : Transport := ⟨fun _ => false⟩

/-- A transport that faults exactly on the exit-mode command `"X"`. -/
def faultOnX : Transport := ⟨fun s => s == "X"⟩

/-- A transport that faults on every command. -/
def faultAll : Transport := ⟨fun _ => true⟩

/-- A concrete device used to instantiate the registry theorems. -/
def devW : Device := { dtype := "TPad", identity := [("port", "COM3")] }



/-! ### Theorems -/

theorem isSameDevice_true_iff {a b : Device} :
    isSameDevice a b = true ↔ a.dtype = b.dtype ∧ a.identity = b.identity := by
  simp [isSameDevice]

theorem isSameDevice_congr {o d d' : Device} (h : isSameDevice d d' = true) :
    isSameDevice o d' = isSameDevice o d := by
  rw [isSameDevice_true_iff] at h
  simp [isSameDevice, h.1, h.2]

/-- C1: for every registry state, a device with no identity-equal predecessor is
appended by `registerDevice`; registering a second device whose identity
parameters equal the first's then leaves the registry unchanged, so the registry
holds exactly one entry for them; and whenever some registered device is
identity-equal to the new one, `registerDevice` is a no-op, not an error. -/
theorem registerDevice_identity_dedup (reg : List Device) (d d' : Device)
    (hnew : reg.any (fun obj => isSameDevice obj d) = false)
    (hsame : isSameDevice d d' = true) :
    registerDevice reg d = reg ++ [d] ∧
    registerDevice (registerDevice reg d) d' = reg ++ [d] ∧
    (registerDevice (registerDevice reg d) d').countP (fun obj => isSameDevice obj d') = 1 ∧
    ∀ (reg2 : List Device) (e : Device),
      reg2.any (fun obj => isSameDevice obj e) = true → registerDevice reg2 e = reg2 := by
  have h1 : registerDevice reg d = reg ++ [d] := by
    simp [registerDevice, hnew]
  have hany : (reg ++ [d]).any (fun obj => isSameDevice obj d') = true := by
    simp [List.any_append, hsame]
  have h2 : registerDevice (reg ++ [d]) d' = reg ++ [d] := by
    simp [registerDevice, hany]
  have hzero : reg.countP (fun obj => isSameDevice obj d') = 0 := by
    rw [List.countP_eq_zero]
    intro o ho
    have := List.any_eq_false.mp hnew o ho
    simp only [isSameDevice_congr hsame]
    simpa using this
  refine ⟨h1, by rw [h1, h2], ?_, ?_⟩
  · rw [h1, h2, List.countP_append, hzero]
    simp [List.countP_cons, hsame]
  · intro reg2 e h
    simp [registerDevice, h]

/-- Witness for C1 at a concrete device and the empty registry. -/
theorem registerDevice_identity_dedup_witness :
    registerDevice (registerDevice [] devW) devW = [devW] :=
  (registerDevice_identity_dedup [] devW devW (by decide) (by decide)).2.1

/-- C4: a line that does not match the message grammar is silently discarded by
`dispatchMessages`: no error is raised, the message history gains no entry, and
no sub-device handler is invoked (the state is unchanged and nothing is
delivered). -/
theorem dispatchLine_nonmatching_silently_dropped (st : TPad) (line : String)
    (h : matchMessageFormat line.data = none) :
    dispatchLine st line = ⟨st, [], none⟩ ∧
    dispatchMessages st [line] = ⟨st, [], none⟩ := by
  constructor
  · simp [dispatchLine, h]
  · simp [dispatchMessages, dispatchLine, h]

/-- Witness for C4 at the malformed line of the spec's example. -/
theorem dispatchLine_nonmatching_silently_dropped_witness :
    dispatchLine tpadFresh "Z Q 9 abc" = ⟨tpadFresh, [], none⟩ ∧
    dispatchMessages tpadFresh ["Z Q 9 abc"] = ⟨tpadFresh, [], none⟩ :=
  dispatchLine_nonmatching_silently_dropped tpadFresh "Z Q 9 abc" (by decide)

/-- C3 (the code evaluated at the failing input): on a spec list with two
unnamed entries of the same registered type, `addDevicesFromSpec` raises
`AttributeError` while evaluating `name in self.devices` — `DeviceManager`
never assigns a `devices` attribute — instead of assigning two distinct
auto-suffixed names and invoking the constructor twice. -/
theorem addDevicesFromSpec_unnamed_devices_attr_error :
    addDevicesFromSpec deviceAddMethodKeys
      [⟨"Mouse", none, []⟩, ⟨"Mouse", none, []⟩] =
      .error (.attributeError "devices") := rfl

/-- C8 (the code evaluated at the failing input): for an entry whose type has
no registered constructor, `addDevicesFromSpec` reaches the constructor-map
lookup failure (`KeyError`, the spec's UnknownDeviceType) only when the entry
carries an explicit name; an unnamed entry fails earlier, with the
`AttributeError` raised by the undefined `self.devices` attribute. -/
theorem addDevicesFromSpec_unknown_type_errors :
    addDevicesFromSpec deviceAddMethodKeys [⟨"Bogus", none, []⟩] =
      .error (.attributeError "devices") ∧
    addDevicesFromSpec deviceAddMethodKeys [⟨"Bogus", some "b", []⟩] =
      .error (.keyError "Bogus") := ⟨rfl, rfl⟩

/-- C9 (the code evaluated at the failing input): a button-channel line whose
code resolves to a registered button — and likewise a voice-key line — is not
delivered: `TPadButton` and `TPadVoicekey` define neither `parseMessage` nor
`receiveMessage`, so `dispatchMessages` raises `AttributeError` instead of
decoding and delivering a Response. -/
theorem dispatchLine_button_stub_attribute_error :
    (dispatchLine tpadFresh "A P 1 500").error = some (.attributeError "parseMessage") ∧
    (dispatchLine tpadFresh "A P 1 500").delivered = [] ∧
    (dispatchLine tpadFresh "M P 1 500").error = some (.attributeError "parseMessage") := by
  decide

/-- C5 counterexample: the directly concatenated line "CP1500" — channel 'C',
state 'P', code '1', time 500 with no separators — does not match
`messageFormat` and is silently discarded by `dispatchMessages`. -/
theorem concatenated_line_rejected :
    matchMessageFormat ("CP1500".data) = none ∧
    dispatchLine tpadFresh "CP1500" = ⟨tpadFresh, [], none⟩ := by decide

/-- C7: for every target mode, a transport fault raised while sending the
best-effort exit-current-mode command `"X"` is swallowed by `setMode`, which
completes the mode change regardless; a transport fault raised while sending
the `MOD<mode>` select command itself propagates to the caller. -/
theorem setMode_exit_fault_swallowed_select_fault_raised
    (st st2 : TPad) (mode m2 : Nat) (tr tr2 : Transport)
    (hx : tr.fault "X" = true)
    (hmod : tr.fault ("MOD" ++ toString mode) = false)
    (hmod2 : tr2.fault ("MOD" ++ toString m2) = true) :
    setMode tr st mode =
      .ok { st with mode := mode, sent := st.sent ++ ["MOD" ++ toString mode] } ∧
    setMode tr2 st2 m2 = .error .serialException := by
  constructor
  · simp [setMode, sendMessage, hx, hmod]
  · have hsend : ∀ (stx : TPad),
        sendMessage tr2 stx ("MOD" ++ toString m2) = .error .serialException :=
      fun stx => by simp [sendMessage, hmod2]
    simp [setMode, hsend]

/-- Witness for C7: a transport faulting exactly on `"X"`, and one faulting on
everything, at mode 3. -/
theorem setMode_exit_fault_swallowed_select_fault_raised_witness :
    setMode faultOnX tpadFresh 3 =
      .ok { tpadFresh with mode := 3, sent := ["MOD3"] } ∧
    setMode faultAll tpadFresh 3 = .error .serialException := by
  have h := setMode_exit_fault_swallowed_select_fault_raised
    tpadFresh tpadFresh 3 3 faultOnX faultAll (by decide) (by decide) (by decide)
  simpa using h


theorem takeWhile_of_all {p : Char → Bool} {l : List Char} (h : l.all p = true) :
    l.takeWhile p = l := by
  induction l with
  | nil => rfl
  | cons a l ih =>
    simp only [List.all_cons, Bool.and_eq_true] at h
    simp [List.takeWhile_cons, h.1, ih h.2]

theorem matchMessageFormat_spaced (c s b : Char) (ds : List Char)
    (hc : channelKeys.contains c = true) (hs : stateKeys.contains s = true)
    (hb : buttonKeys.contains b = true) (hds : ds.all Char.isDigit = true) :
    matchMessageFormat (c :: ' ' :: s :: ' ' :: b :: ' ' :: ds) = some (c, s, b, ds) := by
  have hc' : c ∈ channelKeys := by simpa using hc
  have hs' : s ∈ stateKeys := by simpa using hs
  have hb' : b ∈ buttonKeys := by simpa using hb
  simp [matchMessageFormat, hc', hs', hb', takeWhile_of_all hds]

/-- C5 (amended): every ASCII line of the shape
`<channel> <state> <code> <time>` — the four fields separated by single
spaces, channel from the channel alphabet, state from the state alphabet,
code from the button/opto alphabet, time a run of decimal digits — matches
the message grammar `messageFormat`, and so passes the format test that
guards processing in `dispatchMessages` (the line is not discarded). -/
theorem spaced_line_matches_grammar (c s b : Char) (ds : List Char)
    (hc : channelKeys.contains c = true) (hs : stateKeys.contains s = true)
    (hb : buttonKeys.contains b = true) (hds : ds.all Char.isDigit = true) :
    matchMessageFormat (c :: ' ' :: s :: ' ' :: b :: ' ' :: ds) = some (c, s, b, ds) :=
  matchMessageFormat_spaced c s b ds hc hs hb hds

/-- Witness for C5 at the line "C P 1 500". -/
theorem spaced_line_matches_grammar_witness :
    matchMessageFormat ('C' :: ' ' :: 'P' :: ' ' :: '1' :: ' ' :: "500".data) =
      some ('C', 'P', '1', "500".data) :=
  spaced_line_matches_grammar 'C' 'P' '1' ("500".data)
    (by decide) (by decide) (by decide) (by decide)

theorem pyFloatOfDigits_ok {ds : List Char} (hne : ds ≠ []) :
    pyFloatOfDigits ds = .ok (digitsVal ds : ℚ) := by
  simp [pyFloatOfDigits, hne]

theorem setPhotodiode_messages (st : TPad) (n : Nat) (pd : TPadPhotodiode) :
    (st.setPhotodiode n pd).messages = st.messages := by
  simp only [TPad.setPhotodiode]
  split
  · rfl
  · split <;> rfl

theorem setPhotodiode_lastTimerReset (st : TPad) (n : Nat) (pd : TPadPhotodiode) :
    (st.setPhotodiode n pd).lastTimerReset = st.lastTimerReset := by
  simp only [TPad.setPhotodiode]
  split
  · rfl
  · split <;> rfl

theorem dispatchToNode_messages_epoch (st1 : TPad) (node : Option Node)
    (parts : Char × Char × Nat × ℚ) :
    (dispatchToNode st1 node parts).state.messages = st1.messages ∧
    (dispatchToNode st1 node parts).state.lastTimerReset = st1.lastTimerReset := by
  cases node with
  | none => exact ⟨rfl, rfl⟩
  | some nd =>
    cases nd with
    | button n => exact ⟨rfl, rfl⟩
    | voicekey n => exact ⟨rfl, rfl⟩
    | photodiode n =>
      rcases hpd : st1.getPhotodiode n with _ | pd
      · simp [dispatchToNode, hpd]
      · simp [dispatchToNode, hpd, setPhotodiode_messages, setPhotodiode_lastTimerReset]

theorem dispatchLine_pd1 (st : TPad) (l : String) (s : Char) (ds : List Char)
    (hm : matchMessageFormat l.data = some ('C', s, '1', ds))
    (hne : ds ≠ []) :
    dispatchLine st l =
      { state := { st with
          messages := dictInsert st.messages
            ((digitsVal ds : ℚ) / 1000 + st.lastTimerReset) l,
          pd1 := st.pd1.receiveMessage
            ⟨(digitsVal ds : ℚ) / 1000 + st.lastTimerReset, s == 'P', st.pd1.threshold⟩ },
        delivered :=
          [(1, ⟨(digitsVal ds : ℚ) / 1000 + st.lastTimerReset, s == 'P', st.pd1.threshold⟩)],
        error := none } := by
  have hint : pyIntOfChar '1' = .ok 1 := rfl
  have hres : resolveNode 'C' 1 = some (.photodiode 1) := rfl
  simp only [dispatchLine, hm, pyFloatOfDigits_ok hne, hint, hres]
  simp [dispatchToNode, TPad.getPhotodiode, TPad.setPhotodiode,
        TPadPhotodiode.parseMessage]

theorem dispatchLine_messages_epoch (st : TPad) (l : String) (c s b : Char)
    (ds : List Char)
    (hm : matchMessageFormat l.data = some (c, s, b, ds))
    (hb : b.isDigit = true) (hne : ds ≠ []) :
    (dispatchLine st l).state.messages =
      dictInsert st.messages ((digitsVal ds : ℚ) / 1000 + st.lastTimerReset) l ∧
    (dispatchLine st l).state.lastTimerReset = st.lastTimerReset := by
  have hint : pyIntOfChar b = .ok (b.toNat - '0'.toNat) := by
    simp [pyIntOfChar, hb]
  simp only [dispatchLine, hm, pyFloatOfDigits_ok hne, hint]
  exact dispatchToNode_messages_epoch _ _ _


/-- C2: for every reset epoch T0, the wire line "C P 1 500" decodes to channel
'C' (the Optos channel), state 'P' (pressed, boolean true) and code '1', and
photodiode handler 1 receives a Response whose timestamp is
rawTime/1000 + T0 = T0 + 0.5 seconds. -/
theorem dispatch_optos_pressed_timestamp (T0 : ℚ) :
    channelCodes.lookup 'C' = some "Optos" ∧
    matchMessageFormat ("C P 1 500".data) = some ('C', 'P', '1', "500".data) ∧
    dispatchLine (tpadAt T0) "C P 1 500" =
      { state := { tpadAt T0 with
                   messages := [(T0 + 1/2, "C P 1 500")],
                   pd1 := { pdFresh 1 with
                            messages := [{ t := T0 + 1/2, value := true, threshold := none }] } },
        delivered := [(1, { t := T0 + 1/2, value := true, threshold := none })],
        error := none } := by
  have hm : matchMessageFormat ("C P 1 500".data) = some ('C', 'P', '1', "500".data) := by
    decide
  refine ⟨rfl, hm, ?_⟩
  rw [dispatchLine_pd1 (tpadAt T0) "C P 1 500" 'P' ("500".data) hm (by decide)]
  have hd : digitsVal ("500".data) = 500 := by decide
  have ht : (digitsVal ("500".data) : ℚ) / 1000 + (tpadAt T0).lastTimerReset = T0 + 1/2 := by
    rw [hd]
    show (500 : ℚ) / 1000 + T0 = T0 + 1/2
    ring_nf
  rw [ht]
  simp [tpadAt, tpadFresh, pdFresh, dictInsert, TPadPhotodiode.receiveMessage]

/-- C6: `resetTimer` sets mode 0, sends the `REST` reset command, records the
host clock time as the reset epoch and returns to mode 3; a message with
rawTime = 0 dispatched immediately after yields a timestamp equal to the host
time recorded at that reset. -/
theorem resetTimer_epoch_and_zero_dispatch (st : TPad) (now : ℚ) :
    resetTimer noFault now st =
      .ok { st with mode := 3, lastTimerReset := now,
                    sent := st.sent ++ ["X", "MOD0", "REST", "X", "MOD3"] } ∧
    (dispatchLine { st with mode := 3, lastTimerReset := now,
                            sent := st.sent ++ ["X", "MOD0", "REST", "X", "MOD3"] }
        "C P 1 0").delivered =
      [(1, { t := now, value := true, threshold := st.pd1.threshold })] := by
  constructor
  · simp [resetTimer, setMode, sendMessage, noFault]
    exact ⟨by decide, by decide⟩
  · have hm : matchMessageFormat ("C P 1 0".data) = some ('C', 'P', '1', "0".data) := by
      decide
    rw [dispatchLine_pd1 _ _ 'P' ("0".data) hm (by decide)]
    have hd : digitsVal ("0".data) = 0 := by decide
    simp [hd]

theorem filter_map_keyUpdate (k : ℚ) (v : String) (d : List (ℚ × String)) :
    ((d.map (fun p => if p.1 = k then (p.1, v) else p)).filter
        (fun p => decide (p.1 = k))) =
      ((d.filter (fun p => decide (p.1 = k))).map
        (fun p => if p.1 = k then (p.1, v) else p)) := by
  induction d with
  | nil => rfl
  | cons a d ih =>
    by_cases ha : a.1 = k
    · simp [List.filter_cons, List.map_cons, ha, ih]
    · simp [List.filter_cons, List.map_cons, ha, ih]

theorem filter_dictInsert_key (d : List (ℚ × String)) (k : ℚ) (v : String)
    (h : (d.filter (fun p => decide (p.1 = k))).length ≤ 1) :
    (dictInsert d k v).filter (fun p => decide (p.1 = k)) = [(k, v)] := by
  by_cases hany : d.any (fun p => decide (p.1 = k)) = true
  · rw [dictInsert, if_pos hany, filter_map_keyUpdate]
    obtain ⟨x, hx⟩ : ∃ x, d.filter (fun p => decide (p.1 = k)) = [x] := by
      rcases hf : d.filter (fun p => decide (p.1 = k)) with _ | ⟨x, rest⟩
      · exfalso
        rw [List.any_eq_true] at hany
        obtain ⟨y, hyd, hpy⟩ := hany
        have hmem : y ∈ d.filter (fun p => decide (p.1 = k)) :=
          List.mem_filter.mpr ⟨hyd, hpy⟩
        simp [hf] at hmem
      · rw [hf] at h
        have : rest = [] := by
          simpa using Nat.le_of_succ_le_succ h
        exact ⟨x, by rw [hf, this]⟩
    have hxk : x.1 = k := by
      have hmem : x ∈ d.filter (fun p => decide (p.1 = k)) := by
        rw [hx]; exact List.mem_singleton.mpr rfl
      simpa using (List.mem_filter.mp hmem).2
    rw [hx]
    simp [hxk]
  · rw [dictInsert, if_neg hany]
    have hnil : d.filter (fun p => decide (p.1 = k)) = [] := by
      refine List.filter_eq_nil_iff.mpr ?_
      intro a ha
      have := List.any_eq_false.mp (Bool.not_eq_true _ ▸ hany) a ha
      simpa using this
    rw [List.filter_append, hnil]
    simp

theorem dispatchMessages_two_state (st : TPad) (l1 l2 : String)
    (he1 : (dispatchLine st l1).error = none) :
    (dispatchMessages st [l1, l2]).state =
      (dispatchLine (dispatchLine st l1).state l2).state := by
  simp only [dispatchMessages, he1]
  rcases h2 : (dispatchLine (dispatchLine st l1).state l2).error with _ | e
  · simp [dispatchMessages, h2]
  · simp [dispatchMessages, h2]

/-- C10: the driver's message history holds at most one raw line per
timestamp: after `dispatchMessages` processes two grammar-matching lines that
carry the same rawTime within the same reset epoch, the history holds exactly
one entry for that timestamp, namely the later-processed line. -/
theorem messages_history_single_entry_per_timestamp (st : TPad)
    (l1 l2 : String) (c1 s1 b1 c2 s2 b2 : Char) (ds1 ds2 : List Char)
    (hm1 : matchMessageFormat l1.data = some (c1, s1, b1, ds1))
    (hm2 : matchMessageFormat l2.data = some (c2, s2, b2, ds2))
    (hb1 : b1.isDigit = true) (hb2 : b2.isDigit = true)
    (hne1 : ds1 ≠ []) (hne2 : ds2 ≠ [])
    (hsame : digitsVal ds1 = digitsVal ds2)
    (he1 : (dispatchLine st l1).error = none)
    (hfresh : st.messages.filter
        (fun p => decide (p.1 = (digitsVal ds1 : ℚ) / 1000 + st.lastTimerReset)) = []) :
    (dispatchMessages st [l1, l2]).state.messages.filter
        (fun p => decide (p.1 = (digitsVal ds1 : ℚ) / 1000 + st.lastTimerReset)) =
      [((digitsVal ds1 : ℚ) / 1000 + st.lastTimerReset, l2)] := by
  obtain ⟨hmsg1, hepoch1⟩ := dispatchLine_messages_epoch st l1 c1 s1 b1 ds1 hm1 hb1 hne1
  obtain ⟨hmsg2, hepoch2⟩ :=
    dispatchLine_messages_epoch (dispatchLine st l1).state l2 c2 s2 b2 ds2 hm2 hb2 hne2
  rw [dispatchMessages_two_state st l1 l2 he1, hmsg2, hmsg1, hepoch1, ← hsame]
  have h1 : ((dictInsert st.messages
      ((digitsVal ds1 : ℚ) / 1000 + st.lastTimerReset) l1).filter
        (fun p => decide (p.1 = (digitsVal ds1 : ℚ) / 1000 + st.lastTimerReset))).length ≤ 1 := by
    rw [filter_dictInsert_key st.messages _ l1 (by rw [hfresh]; simp)]
    simp
  exact filter_dictInsert_key _ _ l2 h1

/-- Witness for C10: a press line and a release line carrying rawTime 500. -/
theorem messages_history_single_entry_witness :
    (dispatchMessages tpadFresh ["C P 1 500", "C R 1 500"]).state.messages.filter
        (fun p => decide (p.1 =
          (digitsVal ("500".data) : ℚ) / 1000 + tpadFresh.lastTimerReset)) =
      [((digitsVal ("500".data) : ℚ) / 1000 + tpadFresh.lastTimerReset, "C R 1 500")] :=
  messages_history_single_entry_per_timestamp tpadFresh "C P 1 500" "C R 1 500"
    'C' 'P' '1' 'C' 'R' '1' ("500".data) ("500".data)
    (by decide) (by decide) (by decide) (by decide) (by decide) (by decide)
    rfl (by decide) rfl

end PsychoPy
